import Mathlib

/-
Verification of wxAnyThread (src/wxAnyThread/__init__.py), a 126-line
module that marshals method calls from worker threads onto the wx main
thread. The embedding below is a shallow model of the module:

* Python exception values are abstracted to their type name and message
  (for the single-argument exceptions this module traffics in,
  str(e) is the message, so the re-raise expression
  type(exception)(exception) reconstructs an exception of the same type
  and message).
* Attribute presence matters in this code (invoke distinguishes outcomes
  with try/except AttributeError, and deletes the traceback attribute),
  so the result attribute is an Option (none = attribute absent) and the
  traceback attribute is an Option (Option Tb) (outer layer: attribute
  existence; inner layer: the Python value, none = Python None).
* The cross-thread hand-off is collapsed to its happens-before order:
  invoke posts the event, the owner thread runs process, set releases
  wait, and invoke then reads the outcome. This sequential composition
  is exactly the ordering guarantee the completion signal provides.
* Object identity of each freshly allocated EventWithData is modelled
  with a numeric tag drawn from an allocation counter.
-/

set_option autoImplicit false

namespace WxAnyThread

/-- Abstract traceback object, the third component of sys.exc_info(). -/
structure Tb where
  tid : Nat
deriving DecidableEq, Repr

/-- A Python exception value, abstracted to its type name and its message
(str of the exception). -/
structure Exc where
  ty : String
  msg : String
deriving DecidableEq, Repr

/-- Outcome of running a Python callable: a return value, or a raised
exception together with the traceback that sys.exc_info() captures. -/
inductive PyResult (α : Type) where
  | ok (v : α)
  | raised (e : Exc) (tb : Tb)
deriving DecidableEq, Repr

/-- A callable taking a positional-argument tuple and keyword arguments. -/
def PyFunc (α κ : Type) : Type := List α → κ → PyResult α

/-- State of EventWithData (lines 48-62 of the source). `_event` is the
internal threading.Event flag; `exception` is the Python value of the
exception attribute (none = Python None); `traceback` is the traceback
attribute, outer Option for attribute existence (none = deleted), inner
Option for the Python value; `result` is the result attribute, which
__init__ does not create (none = attribute absent). `eid` tags the
allocation so distinct EventWithData objects are distinguishable. -/
structure EventWithData (α : Type) where
  _event : Bool
  exception : Option Exc
  traceback : Option (Option Tb)
  result : Option α
  eid : Nat
deriving DecidableEq, Repr

/-- EventWithData.__init__ (lines 49-52): flag cleared, exception = None,
traceback = None, and no result attribute. -/
def EventWithData.init (α : Type) (eid : Nat) : EventWithData α :=
  { _event := false, exception := none, traceback := some none,
    result := none, eid := eid }

/-- EventWithData.set (lines 57-58): set the internal Event flag,
releasing any waiter. -/
def EventWithData.set {α : Type} (ev : EventWithData α) : EventWithData α :=
  { ev with _event := true }

/-- EventWithData.set_exc_info (lines 60-62): store exc_info[1] in the
exception attribute and exc_info[2] in the traceback attribute. -/
def EventWithData.set_exc_info {α : Type} (ev : EventWithData α)
    (e : Exc) (tb : Tb) : EventWithData α :=
  { ev with exception := some e, traceback := some (some tb) }

/-- One mutation process performs on self.event. Keeping the operations
as data lets us count how often set() runs. -/
inductive EvOp (α : Type) where
  | setResult (v : α)
  | setExcInfo (e : Exc) (tb : Tb)
  | setFlag

/-- Test for the set() operation. -/
def EvOp.isSetFlag {α : Type} : EvOp α → Bool
  | .setFlag => true
  | _ => false

/-- Apply one mutation to an EventWithData. -/
def EventWithData.apply {α : Type} (ev : EventWithData α) :
    EvOp α → EventWithData α
  | .setResult v => { ev with result := some v }
  | .setExcInfo e tb => ev.set_exc_info e tb
  | .setFlag => ev.set

/-- MethodInvocationEvent (lines 65-74): the posted event bundling the
callable, its arguments and a freshly allocated EventWithData. -/
structure MethodInvocationEvent (α κ : Type) where
  func : PyFunc α κ
  args : List α
  kwds : κ
  event : EventWithData α

/-- MethodInvocationEvent.__init__ (lines 68-74): store func, args, kwds
and allocate a fresh EventWithData; `eid` is the identity of the fresh
allocation. -/
def MethodInvocationEvent.make {α κ : Type} (func : PyFunc α κ)
    (args : List α) (kwds : κ) (eid : Nat) : MethodInvocationEvent α κ :=
  { func := func, args := args, kwds := kwds, event := EventWithData.init α eid }

/-- Sequence of mutations process (lines 88-96) performs on self.event:
the try block either stores func's result in the result attribute or
records sys.exc_info(), and then set() runs unconditionally, outside the
try block. -/
def MethodInvocationEvent.processOps {α κ : Type}
    (m : MethodInvocationEvent α κ) : List (EvOp α) :=
  (match m.func m.args m.kwds with
   | .ok v => [.setResult v]
   | .raised e tb => [.setExcInfo e tb]) ++ [.setFlag]

/-- MethodInvocationEvent.process (lines 88-96): run the callable on the
owner thread and signal completion. Total: the bare except clause keeps
any exception from escaping into the event loop. -/
def MethodInvocationEvent.process {α κ : Type}
    (m : MethodInvocationEvent α κ) : MethodInvocationEvent α κ :=
  { m with event := m.processOps.foldl EventWithData.apply m.event }

/-- Outcome a call delivers to the calling thread. -/
inductive CallOutcome (α : Type) where
  | returns (v : α)
  | raises (e : Exc) (tb : Option Tb)
  | indexError
  | attributeError (attr : String)
  | typeError
deriving DecidableEq, Repr

/-- Read phase of invoke (lines 80-86): try to return self.event.result;
on AttributeError (no result attribute) read the exception attribute,
read the traceback attribute (an AttributeError here escapes if that
attribute was deleted), delete the traceback attribute, and re-raise
type(exception)(exception).with_traceback(traceback). Returns the
outcome together with the EventWithData as the code leaves it. -/
def readOutcome {α : Type} (ev : EventWithData α) :
    CallOutcome α × EventWithData α :=
  match ev.result with
  | some v => (.returns v, ev)
  | none =>
    match ev.traceback with
    | none => (.attributeError "traceback", ev)
    | some tbv =>
      match ev.exception with
      | some e => (.raises { ty := e.ty, msg := e.msg } tbv,
                   { ev with traceback := none })
      | none => (.typeError, { ev with traceback := none })

/-- MethodInvocationEvent.invoke (lines 76-86) in the happens-before
model: wx.PostEvent(self.args[0], self) first evaluates self.args[0]
(IndexError on an empty tuple), the event reaches the owner thread which
runs process, set() releases wait(), and the read phase produces the
outcome on the calling thread. -/
def MethodInvocationEvent.invoke {α κ : Type}
    (m : MethodInvocationEvent α κ) :
    CallOutcome α × MethodInvocationEvent α κ :=
  match m.args with
  | [] => (.indexError, m)
  | _ :: _ =>
    let m1 := m.process
    let p := readOutcome m1.event
    (p.1, { m1 with event := p.2 })

/-- Simple event handler registered by Connect (lines 99-101): it calls
process on the received event. -/
def handler {α κ : Type} (m : MethodInvocationEvent α κ) :
    MethodInvocationEvent α κ :=
  m.process

/-- Process-wide state the wrapper touches for one target object: whether
the target carries the _AnyThread__connected marker attribute, how many
times Connect has run on it, how many events have been posted to it, and
the allocation counter supplying identities for fresh EventWithData
objects. -/
structure SysState where
  connected : Bool
  connectCalls : Nat
  postCalls : Nat
  nextId : Nat
deriving DecidableEq, Repr

/-- What one call through the wrapper produced: the outcome delivered to
the caller and the MethodInvocationEvent constructed for it, if any, as
built (before processing). -/
structure CallRecord (α κ : Type) where
  outcome : CallOutcome α
  evt : Option (MethodInvocationEvent α κ)

/-- invoker (lines 114-123), the wrapper anythread returns. On the main
thread func is called directly. Otherwise self = args[0] (IndexError on
an empty tuple), Connect runs only when the marker attribute is absent
and the marker is then set, and a fresh MethodInvocationEvent is built,
posted and invoked. -/
def invoker {α κ : Type} (func : PyFunc α κ) (isMainThread : Bool)
    (args : List α) (kwds : κ) (st : SysState) :
    CallRecord α κ × SysState :=
  if isMainThread then
    ({ outcome := match func args kwds with
                  | .ok v => .returns v
                  | .raised e tb => .raises e (some tb),
       evt := none }, st)
  else
    match args with
    | [] => ({ outcome := .indexError, evt := none }, st)
    | _ :: _ =>
      let st1 := if st.connected then st
                 else { st with connected := true,
                                connectCalls := st.connectCalls + 1 }
      let evt := MethodInvocationEvent.make func args kwds st.nextId
      ({ outcome := evt.invoke.1, evt := some evt },
       { st1 with nextId := st.nextId + 1, postCalls := st.postCalls + 1 })

/-- Direct, unwrapped call of func, as the passthrough property of the
spec describes it: the value is returned, or the exception propagates
normally with its own traceback. -/
def directCallSpec {α κ : Type} (func : PyFunc α κ) (args : List α)
    (kwds : κ) : CallOutcome α :=
  match func args kwds with
  | .ok v => .returns v
  | .raised e tb => .raises e (some tb)

/-- Iterate the wrapper n times from non-owner threads with the same
target, threading the per-target state through. -/
def runCalls {α κ : Type} (func : PyFunc α κ) (args : List α) (kwds : κ) :
    Nat → SysState → SysState
  | 0, st => st
  | n + 1, st => runCalls func args kwds n (invoker func false args kwds st).2

/-- Program counter of one caller thread executing the registration
fragment of invoker (lines 119-121), split at the points where the
interpreter may switch threads: the hasattr test is one step, and
Connect together with the marker assignment is a later step. -/
inductive RegPC where
  | atCheck
  | atConnect
  | done
deriving DecidableEq, Repr

/-- Shared state of the registration race: the marker attribute on the
target, the number of Connect calls performed so far, and one program
counter per caller thread. -/
structure RegState where
  marker : Bool
  connects : Nat
  pcs : List RegPC
deriving DecidableEq, Repr

/-- Run one step of caller thread t's registration fragment: at the
check, the thread observes the marker and either finishes or commits to
connecting; at the connect point it runs Connect and sets the marker. -/
def regStep (s : RegState) (t : Nat) : RegState :=
  match s.pcs.get? t with
  | some .atCheck =>
    { s with pcs := s.pcs.set t (if s.marker then .done else .atConnect) }
  | some .atConnect =>
    { s with marker := true, connects := s.connects + 1,
             pcs := s.pcs.set t .done }
  | _ => s

/-- Run a schedule, a list of thread ids, over the registration race. -/
def runSched (s : RegState) : List Nat → RegState
  | [] => s
  | t :: ts => runSched (regStep s t) ts

end WxAnyThread

namespace WxAnyThread

/-- Helper: a call through the wrapper from a non-owner thread on an
already-connected target performs no Connect, keeps the marker, posts
one event and allocates one identity. -/
theorem runCalls_connected_steady {α κ : Type} (func : PyFunc α κ) (a : α)
    (l : List α) (kwds : κ) :
    ∀ (n c p i : Nat),
      runCalls func (a :: l) kwds n ⟨true, c, p, i⟩ = ⟨true, c, p + n, i + n⟩ := by
  intro n
  induction n with
  | zero => intro c p i; rfl
  | succ n ih =>
    intro c p i
    show runCalls func (a :: l) kwds n
        (invoker func false (a :: l) kwds ⟨true, c, p, i⟩).2 = _
    have h2 : (invoker func false (a :: l) kwds ⟨true, c, p, i⟩).2
        = ⟨true, c, p + 1, i + 1⟩ := by
      simp [invoker]
    rw [h2, ih]
    simp [SysState.mk.injEq]
    omega

/-- C1: for every callable f and arguments such that f returns a value v,
invoking the wrapped method from a non-owner thread (post the
MethodInvocationEvent, owner thread runs process(), caller resumes from
wait() and reads) returns exactly v to the calling thread. -/
theorem invoker_nonowner_returns_value {α κ : Type} (func : PyFunc α κ)
    (a : α) (l : List α) (kwds : κ) (st : SysState) (v : α)
    (h : func (a :: l) kwds = .ok v) :
    (invoker func false (a :: l) kwds st).1.outcome = .returns v := by
  simp [invoker, MethodInvocationEvent.invoke, MethodInvocationEvent.make,
    MethodInvocationEvent.process, MethodInvocationEvent.processOps, h,
    EventWithData.apply, EventWithData.init, EventWithData.set, readOutcome]

/-- Witness for C1, the spec scenario: wrapped add(obj, 2, 3) invoked off
the owner thread yields 5. -/
theorem invoker_nonowner_returns_value_witness :
    (invoker (fun args _ => match args with
        | [_, x, y] => PyResult.ok (x + y)
        | _ => PyResult.raised ⟨"TypeError", "bad arity"⟩ ⟨0⟩)
      false [0, 2, 3] () ⟨false, 0, 0, 0⟩).1.outcome = .returns 5 :=
  invoker_nonowner_returns_value _ 0 [2, 3] () _ 5 rfl

/-- C2: for every callable f that raises an error E, invoking the wrapped
method from a non-owner thread raises on the calling thread an error of
the same type and the same message as E, with the captured traceback
attached, after process() has run f on the owner thread. -/
theorem invoker_nonowner_reraises_same_error {α κ : Type} (func : PyFunc α κ)
    (a : α) (l : List α) (kwds : κ) (st : SysState) (e : Exc) (tb : Tb)
    (h : func (a :: l) kwds = .raised e tb) :
    (invoker func false (a :: l) kwds st).1.outcome
      = .raises ⟨e.ty, e.msg⟩ (some tb) := by
  simp [invoker, MethodInvocationEvent.invoke, MethodInvocationEvent.make,
    MethodInvocationEvent.process, MethodInvocationEvent.processOps, h,
    EventWithData.apply, EventWithData.init, EventWithData.set,
    EventWithData.set_exc_info, readOutcome]

/-- Witness for C2, the spec scenario: a method raising
ValueError("bad") makes the worker's call raise a ValueError with
message "bad". -/
theorem invoker_nonowner_reraises_same_error_witness :
    (invoker (fun _ _ => PyResult.raised ⟨"ValueError", "bad"⟩ ⟨7⟩)
      false [(0 : Nat)] () ⟨false, 0, 0, 0⟩).1.outcome
      = .raises ⟨"ValueError", "bad"⟩ (some ⟨7⟩) :=
  invoker_nonowner_reraises_same_error _ 0 [] () _ ⟨"ValueError", "bad"⟩ ⟨7⟩ rfl

/-- C3: calling the wrapped f while the current thread is the owner
thread is extensionally equal to calling f directly: same return value,
same exception with its own traceback, no event constructed or posted,
no Connect, and no state touched. -/
theorem invoker_mainthread_passthrough {α κ : Type} (func : PyFunc α κ)
    (args : List α) (kwds : κ) (st : SysState) :
    invoker func true args kwds st
      = ({ outcome := directCallSpec func args kwds, evt := none }, st) := by
  cases h : func args kwds <;> simp [invoker, directCallSpec, h]

end WxAnyThread

namespace WxAnyThread

/-- C4: for every callable f, including one that raises, process() never
lets an exception escape (it is a total function on events) and on every
path performs exactly one set() on the EventWithData, whose flag is
therefore set afterwards, releasing the waiting caller. -/
theorem process_signals_exactly_once {α κ : Type}
    (m : MethodInvocationEvent α κ) :
    m.processOps.countP (fun op => op.isSetFlag) = 1
      ∧ (m.process).event._event = true := by
  cases h : m.func m.args m.kwds <;>
    simp [MethodInvocationEvent.processOps, MethodInvocationEvent.process, h,
      EvOp.isSetFlag, EventWithData.apply, EventWithData.set]

/-- C5: after process() runs once on a fresh MethodInvocationEvent, at
most one outcome is recorded: on success the result attribute holds the
value while exception and traceback stay None, and on failure exception
and traceback are stored while no result attribute is created. -/
theorem process_fresh_single_outcome {α κ : Type} (func : PyFunc α κ)
    (args : List α) (kwds : κ) (eid : Nat) :
    (MethodInvocationEvent.make func args kwds eid).process.event
      = match func args kwds with
        | .ok v => { _event := true, exception := none, traceback := some none,
                     result := some v, eid := eid }
        | .raised e tb => { _event := true, exception := some e,
                            traceback := some (some tb), result := none,
                            eid := eid } := by
  cases h : func args kwds <;>
    simp [MethodInvocationEvent.make, MethodInvocationEvent.process,
      MethodInvocationEvent.processOps, h, EventWithData.apply,
      EventWithData.init, EventWithData.set, EventWithData.set_exc_info]

/-- C6: when invoke() reads the outcome after wait() returns, it prefers
the result: a present result attribute is returned as-is (and the event
state is untouched), and the stored failure is consulted and re-raised
only when no result attribute exists. -/
theorem readOutcome_prefers_result {α : Type} (ev : EventWithData α) :
    (∀ v : α, ev.result = some v → readOutcome ev = (.returns v, ev))
      ∧ (∀ (e : Exc) (tbv : Option Tb), ev.result = none →
          ev.exception = some e → ev.traceback = some tbv →
          (readOutcome ev).1 = .raises ⟨e.ty, e.msg⟩ tbv) := by
  constructor
  · intro v hv
    simp [readOutcome, hv]
  · intro e tbv hr he ht
    simp [readOutcome, hr, he, ht]

/-- Witness for C6: a signal holding result 7 returns 7 even though an
exception is also stored, and a signal holding only a failure re-raises
it. -/
theorem readOutcome_prefers_result_witness :
    readOutcome (⟨true, some ⟨"ValueError", "bad"⟩, some (some ⟨1⟩),
        some 7, 0⟩ : EventWithData Nat)
      = (.returns 7, ⟨true, some ⟨"ValueError", "bad"⟩, some (some ⟨1⟩),
        some 7, 0⟩)
    ∧ (readOutcome (⟨true, some ⟨"ValueError", "bad"⟩, some (some ⟨1⟩),
        none, 0⟩ : EventWithData Nat)).1
      = .raises ⟨"ValueError", "bad"⟩ (some ⟨1⟩) :=
  ⟨(readOutcome_prefers_result _).1 7 rfl,
   (readOutcome_prefers_result _).2 ⟨"ValueError", "bad"⟩ (some ⟨1⟩)
     rfl rfl rfl⟩

/-- C9: calling the wrapped method from a non-owner thread with an empty
positional-argument tuple raises IndexError (self = args[0]) before any
Connect, any MethodInvocationEvent construction or any post: the call
record carries no event and the state, including the connect, post and
allocation counters, is unchanged. -/
theorem invoker_empty_args_indexerror {α κ : Type} (func : PyFunc α κ)
    (kwds : κ) (st : SysState) :
    invoker func false ([] : List α) kwds st
      = ({ outcome := .indexError, evt := none }, st) := rfl

/-- C10: when invoke() consumes a failure it deletes the traceback
attribute (the exception attribute stays set) while re-raising, so the
stored failure is readable exactly once: reading the same failed outcome
again escapes with an AttributeError on the traceback attribute. -/
theorem readOutcome_failure_read_once {α : Type} (ev : EventWithData α)
    (e : Exc) (tbv : Option Tb) (hr : ev.result = none)
    (he : ev.exception = some e) (ht : ev.traceback = some tbv) :
    readOutcome ev = (.raises ⟨e.ty, e.msg⟩ tbv, { ev with traceback := none })
      ∧ ({ ev with traceback := none } : EventWithData α).exception = some e
      ∧ readOutcome ({ ev with traceback := none } : EventWithData α)
          = (.attributeError "traceback", { ev with traceback := none }) := by
  refine ⟨?_, ?_, ?_⟩
  · simp [readOutcome, hr, he, ht]
  · simpa using he
  · simp [readOutcome, hr]

/-- Witness for C10: a completed failure is re-raised once, then a second
read fails with AttributeError. -/
theorem readOutcome_failure_read_once_witness :
    readOutcome (⟨true, some ⟨"ValueError", "bad"⟩, some (some ⟨3⟩),
        none, 0⟩ : EventWithData Nat)
      = (.raises ⟨"ValueError", "bad"⟩ (some ⟨3⟩),
         ⟨true, some ⟨"ValueError", "bad"⟩, none, none, 0⟩)
    ∧ (⟨true, some ⟨"ValueError", "bad"⟩, none, none, 0⟩ :
        EventWithData Nat).exception = some ⟨"ValueError", "bad"⟩
    ∧ readOutcome (⟨true, some ⟨"ValueError", "bad"⟩, none, none, 0⟩ :
        EventWithData Nat)
      = (.attributeError "traceback",
         ⟨true, some ⟨"ValueError", "bad"⟩, none, none, 0⟩) :=
  readOutcome_failure_read_once _ ⟨"ValueError", "bad"⟩ (some ⟨3⟩)
    rfl rfl rfl

end WxAnyThread

namespace WxAnyThread

/-- Counterexample for C7: the check-then-set of the marker attribute in
invoker (lines 119-121) is not atomic, so two concurrent first calls on
a never-before-seen target can both pass the hasattr test and both run
Connect. The schedule where both threads run their check before either
connects performs two Connect calls, refuting "exactly one Connect
regardless of N or concurrency". -/
theorem reg_race_two_connects :
    (runSched ⟨false, 0, [RegPC.atCheck, RegPC.atCheck]⟩ [0, 1, 0, 1]).connects = 2
      ∧ ¬ (runSched ⟨false, 0, [RegPC.atCheck, RegPC.atCheck]⟩
            [0, 1, 0, 1]).connects = 1 := by
  constructor <;> decide

/-- C7 (amended): calling a wrapped method on the same target object N ≥ 1
times sequentially from non-owner threads performs exactly one Connect on
that target; the first call sets the _AnyThread__connected marker and
every subsequent call skips registration. (Unsynchronized concurrent
first calls can race and Connect twice; see the counterexample.) -/
theorem runCalls_connects_once {α κ : Type} (func : PyFunc α κ) (a : α)
    (l : List α) (kwds : κ) (c p i n : Nat) :
    (runCalls func (a :: l) kwds (n + 1) ⟨false, c, p, i⟩).connectCalls = c + 1
      ∧ (runCalls func (a :: l) kwds (n + 1) ⟨false, c, p, i⟩).connected = true := by
  have h1 : (invoker func false (a :: l) kwds ⟨false, c, p, i⟩).2
      = ⟨true, c + 1, p + 1, i + 1⟩ := by
    simp [invoker]
  have h2 : runCalls func (a :: l) kwds (n + 1) ⟨false, c, p, i⟩
      = runCalls func (a :: l) kwds n ⟨true, c + 1, p + 1, i + 1⟩ := by
    show runCalls func (a :: l) kwds n
        (invoker func false (a :: l) kwds ⟨false, c, p, i⟩).2 = _
    rw [h1]
  rw [h2, runCalls_connected_steady]
  exact ⟨rfl, rfl⟩

/-- C8: every cross-thread call constructs its own fresh
MethodInvocationEvent whose freshly allocated EventWithData is
not-yet-signaled, has no result attribute and has exception and
traceback None; two successive calls allocate EventWithData objects with
distinct identities, so they never share a completion signal. -/
theorem crossthread_calls_fresh_events {α κ : Type} (f g : PyFunc α κ)
    (a b : α) (l m : List α) (k1 k2 : κ) (st : SysState) :
    (invoker f false (a :: l) k1 st).1.evt
        = some (MethodInvocationEvent.make f (a :: l) k1 st.nextId)
      ∧ (invoker g false (b :: m) k2 (invoker f false (a :: l) k1 st).2).1.evt
        = some (MethodInvocationEvent.make g (b :: m) k2 (st.nextId + 1))
      ∧ (MethodInvocationEvent.make f (a :: l) k1 st.nextId).event
        = EventWithData.init α st.nextId
      ∧ (EventWithData.init α st.nextId)._event = false
      ∧ (EventWithData.init α st.nextId).result = none
      ∧ (EventWithData.init α st.nextId).exception = none
      ∧ (EventWithData.init α st.nextId).traceback = some none
      ∧ (MethodInvocationEvent.make f (a :: l) k1 st.nextId).event.eid
        ≠ (MethodInvocationEvent.make g (b :: m) k2 (st.nextId + 1)).event.eid := by
  refine ⟨rfl, ?_, rfl, rfl, rfl, rfl, rfl, ?_⟩
  · simp [invoker]
  · simp [MethodInvocationEvent.make, EventWithData.init]

end WxAnyThread
